import Mathlib

/-!
# Telemetry stub of the Cactus Android build

A shallow embedding of `app/src/main/cpp/cactus/telemetry_stub.cpp`.

Every function of the translation unit has the return type `void` and an empty
body.  A call is embedded as a function from its arguments and the program
state before the call to either a fault or the returned value together with the
program state after the call.  The translation unit declares no variable at
namespace scope, so the program state is whatever the rest of the process
owns; the functions are therefore defined over an arbitrary state type `σ`.

C++ types are embedded as follows.

* `double` is the 64-bit IEEE-754 pattern of the value.  The stub performs no
  arithmetic, so only identity of patterns is ever needed.
* `int` is an integer.
* `bool` is `Bool`.
* `const char*` is an optional string: `none` is the null pointer.
-/

set_option linter.unusedVariables false

namespace cactus
namespace telemetry

/-- A C++ `double`, as its IEEE-754 binary64 bit pattern. -/
structure Double where
  bits : Fin (2 ^ 64)
  deriving DecidableEq, Repr

/-- A C++ `int`. -/
abbrev CInt := Int

/-- A C++ `const char*`: `none` is the null pointer, `some s` points at the
NUL-terminated text `s`. -/
abbrev CStr := Option String

/-- The record `struct CompletionMetrics` (lines 13-23 of the source), field by
field in declaration order. -/
structure CompletionMetrics where
  prompt_tokens : Double
  completion_tokens : Double
  total_tokens : Double
  model_id : CInt
  is_cached : Bool
  cache_hit_tokens : Double
  time_to_first_token : Double
  time_per_output_token : Double
  event_timestamp : Double
  deriving DecidableEq, Repr

/-- The ways in which a C++ call can fail to return normally. -/
inductive Fault where
  | nullDereference
  | rejectedArgument
  | exceptionThrown
  deriving DecidableEq, Repr

/-- The outcome of a call to a `void` function from a state of type `σ`: a
fault, or the (unit) return value and the state in which the call returns. -/
abbrev Outcome (σ : Type) := Except Fault (Unit × σ)

/-- `void init(const char* api_key, const char* endpoint, const char* model) {}` -/
def init {σ : Type} (api_key endpoint model : CStr) (w : σ) : Outcome σ :=
  .ok ((), w)

/-- `void setCloudDisabled(bool disabled) {}` -/
def setCloudDisabled {σ : Type} (disabled : Bool) (w : σ) : Outcome σ :=
  .ok ((), w)

/-- `void setStreamMode(bool enabled) {}` -/
def setStreamMode {σ : Type} (enabled : Bool) (w : σ) : Outcome σ :=
  .ok ((), w)

/-- `void recordCompletion(const char* event_type, const CompletionMetrics& metrics) {}` -/
def recordCompletion {σ : Type} (event_type : CStr) (metrics : CompletionMetrics)
    (w : σ) : Outcome σ :=
  .ok ((), w)

/-- `void recordInit(const char* model_name, bool success, double duration_ms,
const char* error_msg) {}` -/
def recordInit {σ : Type} (model_name : CStr) (success : Bool) (duration_ms : Double)
    (error_msg : CStr) (w : σ) : Outcome σ :=
  .ok ((), w)

/-- `void recordTranscription(const char* audio_data, bool success,
double audio_duration_sec, double transcription_duration_sec, double cost_usd,
int num_speakers, const char* language) {}` -/
def recordTranscription {σ : Type} (audio_data : CStr) (success : Bool)
    (audio_duration_sec transcription_duration_sec cost_usd : Double)
    (num_speakers : CInt) (language : CStr) (w : σ) : Outcome σ :=
  .ok ((), w)

/-- `void recordStreamTranscription(const char* session_id, bool is_final,
double audio_duration_sec, double transcription_duration_sec, double cost_usd,
int chunk_index, double time_to_first_token, double time_per_chunk,
double total_transcription_time, int num_speakers, const char* language) {}` -/
def recordStreamTranscription {σ : Type} (session_id : CStr) (is_final : Bool)
    (audio_duration_sec transcription_duration_sec cost_usd : Double)
    (chunk_index : CInt)
    (time_to_first_token time_per_chunk total_transcription_time : Double)
    (num_speakers : CInt) (language : CStr) (w : σ) : Outcome σ :=
  .ok ((), w)

/-- One call of the interface: the function called and its actual arguments. -/
inductive Call where
  | init (api_key endpoint model : CStr)
  | setCloudDisabled (disabled : Bool)
  | setStreamMode (enabled : Bool)
  | recordCompletion (event_type : CStr) (metrics : CompletionMetrics)
  | recordInit (model_name : CStr) (success : Bool) (duration_ms : Double)
      (error_msg : CStr)
  | recordTranscription (audio_data : CStr) (success : Bool)
      (audio_duration_sec transcription_duration_sec cost_usd : Double)
      (num_speakers : CInt) (language : CStr)
  | recordStreamTranscription (session_id : CStr) (is_final : Bool)
      (audio_duration_sec transcription_duration_sec cost_usd : Double)
      (chunk_index : CInt)
      (time_to_first_token time_per_chunk total_transcription_time : Double)
      (num_speakers : CInt) (language : CStr)
  deriving DecidableEq, Repr

/-- Performs one call: dispatches to the function the call names. -/
def Call.run {σ : Type} (c : Call) (w : σ) : Outcome σ :=
  match c with
  | .init api_key endpoint model => telemetry.init api_key endpoint model w
  | .setCloudDisabled disabled => telemetry.setCloudDisabled disabled w
  | .setStreamMode enabled => telemetry.setStreamMode enabled w
  | .recordCompletion event_type metrics =>
      telemetry.recordCompletion event_type metrics w
  | .recordInit model_name success duration_ms error_msg =>
      telemetry.recordInit model_name success duration_ms error_msg w
  | .recordTranscription audio_data success audio_duration_sec
      transcription_duration_sec cost_usd num_speakers language =>
      telemetry.recordTranscription audio_data success audio_duration_sec
        transcription_duration_sec cost_usd num_speakers language w
  | .recordStreamTranscription session_id is_final audio_duration_sec
      transcription_duration_sec cost_usd chunk_index time_to_first_token
      time_per_chunk total_transcription_time num_speakers language =>
      telemetry.recordStreamTranscription session_id is_final audio_duration_sec
        transcription_duration_sec cost_usd chunk_index time_to_first_token
        time_per_chunk total_transcription_time num_speakers language w

/-- Sequential composition `f; g` of two calls: `g` runs from the state in which
`f` returned, and a fault of `f` ends the program. -/
def andThen {σ : Type} (f g : σ → Outcome σ) (w : σ) : Outcome σ :=
  match f w with
  | .ok (_, w') => g w'
  | .error e => .error e

/-- Performs a finite sequence of calls, first to last. -/
def runAll {σ : Type} : List Call → σ → Outcome σ
  | [], w => .ok ((), w)
  | c :: cs, w => andThen c.run (runAll cs) w

/-- Whether a call returned to its caller rather than faulting. -/
def returnsNormally {σ : Type} (o : Outcome σ) : Bool :=
  match o with
  | .ok _ => true
  | .error _ => false

/-- The `double` 10.0. -/
def d10 : Double := ⟨0x4024000000000000⟩
/-- The `double` 5.0. -/
def d5 : Double := ⟨0x4014000000000000⟩
/-- The `double` 15.0. -/
def d15 : Double := ⟨0x402E000000000000⟩
/-- The `double` 0.0. -/
def d0 : Double := ⟨0⟩
/-- The `double` nearest to 0.1. -/
def dTenth : Double := ⟨0x3FB999999999999A⟩
/-- The `double` nearest to 0.02. -/
def dFiftieth : Double := ⟨0x3F947AE147AE147B⟩
/-- The `double` 1000.0. -/
def d1000 : Double := ⟨0x408F400000000000⟩

/-- The metrics record of the scenario `init` then `recordCompletion`. -/
def scenarioMetrics : CompletionMetrics where
  prompt_tokens := d10
  completion_tokens := d5
  total_tokens := d15
  model_id := 1
  is_cached := false
  cache_hit_tokens := d0
  time_to_first_token := dTenth
  time_per_output_token := dFiftieth
  event_timestamp := d1000

/-- The two calls of the scenario, in order. -/
def scenario : List Call :=
  [.init (some "k") (some "e") (some "m"),
   .recordCompletion (some "completion") scenarioMetrics]

/-! ## Auxiliary facts -/

theorem Call.run_eq {σ : Type} (c : Call) (w : σ) : c.run w = .ok ((), w) := by
  cases c <;> rfl

theorem runAll_eq {σ : Type} (cs : List Call) (w : σ) : runAll cs w = .ok ((), w) := by
  induction cs generalizing w with
  | nil => rfl
  | cons c cs ih => simp only [runAll, andThen, Call.run_eq, ih]

/-! ## The claims -/

/-- C1: each of the seven operations, run with any arguments from any state,
returns the unit value and leaves the state exactly as it was. -/
theorem operations_are_noops {σ : Type} (w : σ) :
    (∀ api_key endpoint model : CStr, init api_key endpoint model w = .ok ((), w)) ∧
    (∀ disabled : Bool, setCloudDisabled disabled w = .ok ((), w)) ∧
    (∀ enabled : Bool, setStreamMode enabled w = .ok ((), w)) ∧
    (∀ (event_type : CStr) (metrics : CompletionMetrics),
      recordCompletion event_type metrics w = .ok ((), w)) ∧
    (∀ (model_name : CStr) (success : Bool) (duration_ms : Double) (error_msg : CStr),
      recordInit model_name success duration_ms error_msg w = .ok ((), w)) ∧
    (∀ (audio_data : CStr) (success : Bool)
      (audio_duration_sec transcription_duration_sec cost_usd : Double)
      (num_speakers : CInt) (language : CStr),
      recordTranscription audio_data success audio_duration_sec
        transcription_duration_sec cost_usd num_speakers language w = .ok ((), w)) ∧
    (∀ (session_id : CStr) (is_final : Bool)
      (audio_duration_sec transcription_duration_sec cost_usd : Double)
      (chunk_index : CInt)
      (time_to_first_token time_per_chunk total_transcription_time : Double)
      (num_speakers : CInt) (language : CStr),
      recordStreamTranscription session_id is_final audio_duration_sec
        transcription_duration_sec cost_usd chunk_index time_to_first_token
        time_per_chunk total_transcription_time num_speakers language w = .ok ((), w)) :=
  ⟨fun _ _ _ => rfl, fun _ => rfl, fun _ => rfl, fun _ _ => rfl,
    fun _ _ _ _ => rfl, fun _ _ _ _ _ _ _ => rfl,
    fun _ _ _ _ _ _ _ _ _ _ _ => rfl⟩


/-- C2: with text arguments as optional strings (absent ones included), any
numeric arguments (zero and negative included) and either boolean value, each
of the seven operations returns normally from any state: its outcome is never a
fault, whichever fault is considered. -/
theorem operations_never_fail {σ : Type} (w : σ) :
    (∀ api_key endpoint model : CStr,
      returnsNormally (init api_key endpoint model w) = true ∧
      ∀ e : Fault, init api_key endpoint model w ≠ .error e) ∧
    (∀ disabled : Bool,
      returnsNormally (setCloudDisabled disabled w) = true ∧
      ∀ e : Fault, setCloudDisabled disabled w ≠ .error e) ∧
    (∀ enabled : Bool,
      returnsNormally (setStreamMode enabled w) = true ∧
      ∀ e : Fault, setStreamMode enabled w ≠ .error e) ∧
    (∀ (event_type : CStr) (metrics : CompletionMetrics),
      returnsNormally (recordCompletion event_type metrics w) = true ∧
      ∀ e : Fault, recordCompletion event_type metrics w ≠ .error e) ∧
    (∀ (model_name : CStr) (success : Bool) (duration_ms : Double) (error_msg : CStr),
      returnsNormally (recordInit model_name success duration_ms error_msg w) = true ∧
      ∀ e : Fault, recordInit model_name success duration_ms error_msg w ≠ .error e) ∧
    (∀ (audio_data : CStr) (success : Bool)
      (audio_duration_sec transcription_duration_sec cost_usd : Double)
      (num_speakers : CInt) (language : CStr),
      returnsNormally (recordTranscription audio_data success audio_duration_sec
        transcription_duration_sec cost_usd num_speakers language w) = true ∧
      ∀ e : Fault, recordTranscription audio_data success audio_duration_sec
        transcription_duration_sec cost_usd num_speakers language w ≠ .error e) ∧
    (∀ (session_id : CStr) (is_final : Bool)
      (audio_duration_sec transcription_duration_sec cost_usd : Double)
      (chunk_index : CInt)
      (time_to_first_token time_per_chunk total_transcription_time : Double)
      (num_speakers : CInt) (language : CStr),
      returnsNormally (recordStreamTranscription session_id is_final
        audio_duration_sec transcription_duration_sec cost_usd chunk_index
        time_to_first_token time_per_chunk total_transcription_time num_speakers
        language w) = true ∧
      ∀ e : Fault, recordStreamTranscription session_id is_final
        audio_duration_sec transcription_duration_sec cost_usd chunk_index
        time_to_first_token time_per_chunk total_transcription_time num_speakers
        language w ≠ .error e) := by
  refine ⟨?_, ?_, ?_, ?_, ?_, ?_, ?_⟩ <;> intros <;>
    exact ⟨rfl, fun e h => Except.noConfusion h⟩

/-- C3: any finite sequence of calls, with any arguments and in any order,
returns in the state it started from, so that any call made after the sequence
has the outcome it has without the sequence; in particular `init("k","e","m")`
followed by `recordCompletion("completion", metrics)` with the metrics of the
scenario returns the unit value, without fault, in the unchanged state. -/
theorem call_sequences_leave_state {σ : Type} (w : σ) :
    (∀ cs : List Call, runAll cs w = .ok ((), w)) ∧
    (∀ (cs : List Call) (c : Call), andThen (runAll cs) c.run w = c.run w) ∧
    runAll scenario w = .ok ((), w) ∧
    andThen (init (some "k") (some "e") (some "m"))
      (recordCompletion (some "completion") scenarioMetrics) w = .ok ((), w) := by
  refine ⟨fun cs => runAll_eq cs w, fun cs c => ?_, runAll_eq scenario w, rfl⟩
  simp only [andThen, runAll_eq]

/-- C4: `recordCompletion` takes its metrics by reference, so the caller's
record is part of the state the call runs in; that state is here the pair of the
record `m` and the rest of the state `w`.  For every event type, every record
and every rest, the call returns in a state whose record has the same nine
field values as `m` and whose rest is `w`: nothing was assigned and nothing was
stored. -/
theorem recordCompletion_keeps_metrics {σ : Type} (event_type : CStr)
    (m : CompletionMetrics) (w : σ) :
    ∃ (m' : CompletionMetrics) (w' : σ),
      recordCompletion event_type m (m, w) = .ok ((), (m', w')) ∧
      m'.prompt_tokens = m.prompt_tokens ∧
      m'.completion_tokens = m.completion_tokens ∧
      m'.total_tokens = m.total_tokens ∧
      m'.model_id = m.model_id ∧
      m'.is_cached = m.is_cached ∧
      m'.cache_hit_tokens = m.cache_hit_tokens ∧
      m'.time_to_first_token = m.time_to_first_token ∧
      m'.time_per_output_token = m.time_per_output_token ∧
      m'.event_timestamp = m.event_timestamp ∧
      w' = w :=
  ⟨m, w, rfl, rfl, rfl, rfl, rfl, rfl, rfl, rfl, rfl, rfl, rfl⟩

/-- C5: seen as state transformers, any two calls `f` and `g` (each an operation
with its arguments fixed) satisfy `f; f = f` and `g; f = f; g` in every state. -/
theorem calls_idempotent_and_commute {σ : Type} (f g : Call) (s : σ) :
    andThen f.run f.run s = f.run s ∧
    andThen g.run f.run s = andThen f.run g.run s := by
  simp only [andThen, Call.run_eq, and_self]

/-- C6: for each of the seven operations, any two argument tuples give, from
the same state, the same returned value and the same final state: no argument
reaches anything observable. -/
theorem operations_ignore_arguments {σ : Type} (s : σ) :
    (∀ api_key endpoint model api_key' endpoint' model' : CStr,
      init api_key endpoint model s = init api_key' endpoint' model' s) ∧
    (∀ disabled disabled' : Bool,
      setCloudDisabled disabled s = setCloudDisabled disabled' s) ∧
    (∀ enabled enabled' : Bool,
      setStreamMode enabled s = setStreamMode enabled' s) ∧
    (∀ (event_type event_type' : CStr) (metrics metrics' : CompletionMetrics),
      recordCompletion event_type metrics s =
        recordCompletion event_type' metrics' s) ∧
    (∀ (model_name model_name' : CStr) (success success' : Bool)
      (duration_ms duration_ms' : Double) (error_msg error_msg' : CStr),
      recordInit model_name success duration_ms error_msg s =
        recordInit model_name' success' duration_ms' error_msg' s) ∧
    (∀ (audio_data audio_data' : CStr) (success success' : Bool)
      (audio_duration_sec transcription_duration_sec cost_usd : Double)
      (audio_duration_sec' transcription_duration_sec' cost_usd' : Double)
      (num_speakers num_speakers' : CInt) (language language' : CStr),
      recordTranscription audio_data success audio_duration_sec
        transcription_duration_sec cost_usd num_speakers language s =
      recordTranscription audio_data' success' audio_duration_sec'
        transcription_duration_sec' cost_usd' num_speakers' language' s) ∧
    (∀ (session_id session_id' : CStr) (is_final is_final' : Bool)
      (audio_duration_sec transcription_duration_sec cost_usd : Double)
      (audio_duration_sec' transcription_duration_sec' cost_usd' : Double)
      (chunk_index chunk_index' : CInt)
      (time_to_first_token time_per_chunk total_transcription_time : Double)
      (time_to_first_token' time_per_chunk' total_transcription_time' : Double)
      (num_speakers num_speakers' : CInt) (language language' : CStr),
      recordStreamTranscription session_id is_final audio_duration_sec
        transcription_duration_sec cost_usd chunk_index time_to_first_token
        time_per_chunk total_transcription_time num_speakers language s =
      recordStreamTranscription session_id' is_final' audio_duration_sec'
        transcription_duration_sec' cost_usd' chunk_index' time_to_first_token'
        time_per_chunk' total_transcription_time' num_speakers' language' s) := by
  refine ⟨?_, ?_, ?_, ?_, ?_, ?_, ?_⟩ <;> intros <;> rfl

/-- C7: `recordStreamTranscription` returns normally, as a no-op, for every
chunk index (negative ones included) and either value of the final flag,
whatever the other arguments; in particular with `is_final = true` and
`chunk_index = -1`. -/
theorem recordStreamTranscription_accepts_any_chunk {σ : Type} (session_id : CStr)
    (audio_duration_sec transcription_duration_sec cost_usd : Double)
    (time_to_first_token time_per_chunk total_transcription_time : Double)
    (num_speakers : CInt) (language : CStr) (w : σ) :
    (∀ (is_final : Bool) (chunk_index : CInt),
      recordStreamTranscription session_id is_final audio_duration_sec
        transcription_duration_sec cost_usd chunk_index time_to_first_token
        time_per_chunk total_transcription_time num_speakers language w =
        .ok ((), w)) ∧
    recordStreamTranscription session_id true audio_duration_sec
      transcription_duration_sec cost_usd (-1) time_to_first_token
      time_per_chunk total_transcription_time num_speakers language w =
      .ok ((), w) ∧
    returnsNormally (recordStreamTranscription session_id true audio_duration_sec
      transcription_duration_sec cost_usd (-1) time_to_first_token
      time_per_chunk total_transcription_time num_speakers language w) = true :=
  ⟨fun _ _ => rfl, rfl, rfl⟩

/-- C8: `CompletionMetrics` is built from exactly nine values, in the order
three `double`s, an `int`, a `bool`, four `double`s; each field of the record
built from nine values is the value assigned to it, and every record is the one
built from its own nine fields. -/
theorem CompletionMetrics_fields
    (prompt_tokens completion_tokens total_tokens : Double) (model_id : CInt)
    (is_cached : Bool)
    (cache_hit_tokens time_to_first_token time_per_output_token
      event_timestamp : Double) :
    (CompletionMetrics.mk prompt_tokens completion_tokens total_tokens model_id
      is_cached cache_hit_tokens time_to_first_token time_per_output_token
      event_timestamp).prompt_tokens = prompt_tokens ∧
    (CompletionMetrics.mk prompt_tokens completion_tokens total_tokens model_id
      is_cached cache_hit_tokens time_to_first_token time_per_output_token
      event_timestamp).completion_tokens = completion_tokens ∧
    (CompletionMetrics.mk prompt_tokens completion_tokens total_tokens model_id
      is_cached cache_hit_tokens time_to_first_token time_per_output_token
      event_timestamp).total_tokens = total_tokens ∧
    (CompletionMetrics.mk prompt_tokens completion_tokens total_tokens model_id
      is_cached cache_hit_tokens time_to_first_token time_per_output_token
      event_timestamp).model_id = model_id ∧
    (CompletionMetrics.mk prompt_tokens completion_tokens total_tokens model_id
      is_cached cache_hit_tokens time_to_first_token time_per_output_token
      event_timestamp).is_cached = is_cached ∧
    (CompletionMetrics.mk prompt_tokens completion_tokens total_tokens model_id
      is_cached cache_hit_tokens time_to_first_token time_per_output_token
      event_timestamp).cache_hit_tokens = cache_hit_tokens ∧
    (CompletionMetrics.mk prompt_tokens completion_tokens total_tokens model_id
      is_cached cache_hit_tokens time_to_first_token time_per_output_token
      event_timestamp).time_to_first_token = time_to_first_token ∧
    (CompletionMetrics.mk prompt_tokens completion_tokens total_tokens model_id
      is_cached cache_hit_tokens time_to_first_token time_per_output_token
      event_timestamp).time_per_output_token = time_per_output_token ∧
    (CompletionMetrics.mk prompt_tokens completion_tokens total_tokens model_id
      is_cached cache_hit_tokens time_to_first_token time_per_output_token
      event_timestamp).event_timestamp = event_timestamp ∧
    (∀ m : CompletionMetrics,
      m = CompletionMetrics.mk m.prompt_tokens m.completion_tokens m.total_tokens
        m.model_id m.is_cached m.cache_hit_tokens m.time_to_first_token
        m.time_per_output_token m.event_timestamp) :=
  ⟨rfl, rfl, rfl, rfl, rfl, rfl, rfl, rfl, rfl, fun _ => rfl⟩

end telemetry
end cactus
